import Mathlib

/-!
# Verification of the buyer/build compatibility scorer

Shallow embedding of `calcCompatibility` (frontend compatibility module)
and proofs of the specified properties.  JavaScript numbers are modelled
as rationals (`ℚ`); nullable values as `Option`; `Math.round` as
`⌊x + 1/2⌋` (round half toward +∞, matching JS `Math.round`).
-/

namespace Players

/-- The per-build gameplay performance block (`BuildPerformance` in
`types.ts`); only numeric fields, plus the optional patch version. -/
structure BuildPerformance where
  speed : ℚ
  shooting : ℚ
  defense : ℚ
  playmaking : ℚ
  athleticism : ℚ
  patch_version : Option String
deriving Repr, DecidableEq

/-- Projection of the `User` record to the field `calcCompatibility`
reads: `playstyle_vector : number[] | null`. -/
structure User where
  playstyle_vector : Option (List ℚ)
deriving Repr, DecidableEq

/-- Projection of the `Build` record to the fields `calcCompatibility`
reads: `build_vector : number[] | null`, and `performance`, which the
code accesses with optional chaining (`build.performance?.shooting`),
hence modelled as optional. -/
structure Build where
  build_vector : Option (List ℚ)
  performance : Option BuildPerformance
deriving Repr, DecidableEq

/-- Result record (`CompatibilityResult` in `types.ts`).  `score` and
`predictedWinBoost` come out of `Math.round`, hence integers. -/
structure CompatibilityResult where
  score : ℤ
  label : String
  strengths : List String
  weaknesses : List String
  predictedWinBoost : ℤ
deriving Repr, DecidableEq

/-- JS `Math.round`: floor of `x + 1/2` (rounds half toward +∞).
Uses `Rat.floor` so the function evaluates by kernel reduction. -/
def jsRound (q : ℚ) : ℤ := (q + 1/2).floor

/-- JS `a || b` applied to an optional number: `undefined` and the falsy
value `0` both fall through to the default. -/
def jsOrDefault (x : Option ℚ) (d : ℚ) : ℚ :=
  match x with
  | none => d
  | some v => if v = 0 then d else v

/-- `PLAYSTYLE_KEYS`: the eight playstyle dimension keys, in order. -/
def PLAYSTYLE_KEYS : List String :=
  [ "shootVsDrive"
  , "soloVsSquad"
  , "defenseSkill"
  , "reactionTiming"
  , "offensiveStyle"
  , "physicalPlay"
  , "pacePreference"
  , "consistencyVsHighRisk" ]

/-- `DIMENSION_LABELS`: the per-dimension human readable (low, high)
phrase pair. -/
def DIMENSION_LABELS (key : String) : String × String :=
  if key = "shootVsDrive" then ("Drive style", "Shooting style")
  else if key = "soloVsSquad" then ("Squad play", "Solo play")
  else if key = "defenseSkill" then ("Offense focus", "Defense focus")
  else if key = "reactionTiming" then ("Casual pace", "Elite timing")
  else if key = "offensiveStyle" then ("Set plays", "Freestyle offense")
  else if key = "physicalPlay" then ("Finesse", "Physical")
  else if key = "pacePreference" then ("Slow & methodical", "Fast & aggressive")
  else ("Consistent", "High-risk/reward")

/-- Per-dimension score: `(1 - |u - b| / 9) * 100`. -/
def dimScore (u b : ℚ) : ℚ := (1 - |u - b| / 9) * 100

/-- One iteration of the scoring loop body, folded over the list of
`((userVec[i], buildVec[i]), (lowLabel, highLabel))` tuples: accumulates
the dimension-score total, the aligned-dimension strings (`dimScore ≥ 75`)
and, in the `else if` branch, the misaligned-dimension strings
(`dimScore < 45`), each in dimension order. -/
def scanDims : List ((ℚ × ℚ) × (String × String)) → ℚ × List String × List String
  | [] => (0, [], [])
  | ((u, b), lab) :: rest =>
    let d := dimScore u b
    let r := scanDims rest
    ( d + r.1
    , (if d ≥ 75 then [if u ≥ 5 then "Fits your " ++ lab.2 else "Fits your " ++ lab.1]
       else []) ++ r.2.1
    , (if d ≥ 75 then []
       else if d < 45 then
         [if u ≥ 5 then "Conflicts with your " ++ lab.2 else "Conflicts with your " ++ lab.1]
       else []) ++ r.2.2 )

/-- The fixed neutral fallback returned on missing or malformed vectors. -/
def fallbackResult : CompatibilityResult :=
  { score := 70, label := "Good Match", strengths := [], weaknesses := []
  , predictedWinBoost := 5 }

/-- The top-down threshold classification of the overall score. -/
def matchLabel (score : ℤ) : String :=
  if score ≥ 90 then "Perfect Match"
  else if score ≥ 75 then "Great Match"
  else if score ≥ 60 then "Good Match"
  else if score ≥ 45 then "Moderate Match"
  else "Poor Match"

/-- Embedding of `calcCompatibility(user, build)`. -/
def calcCompatibility (user : User) (build : Build) : CompatibilityResult :=
  match user.playstyle_vector, build.build_vector with
  | some userVec, some buildVec =>
    if userVec.length = 8 ∧ buildVec.length = 8 then
      let res := scanDims ((userVec.zip buildVec).zip (PLAYSTYLE_KEYS.map DIMENSION_LABELS))
      let score := jsRound (res.1 / 8)
      let baseBoost := ((score : ℚ) - 50) / 50 * 25
      let perfBoost := (jsOrDefault (build.performance.map BuildPerformance.shooting) 50 - 50) * 0.3
      { score := score
      , label := matchLabel score
      , strengths := res.2.1.take 3
      , weaknesses := res.2.2.take 2
      , predictedWinBoost := jsRound (max (-15) (min 30 (baseBoost + perfBoost))) }
    else fallbackResult
  | _, _ => fallbackResult

/-! ## Basic lemmas about the embedding -/

theorem jsRound_eq (q : ℚ) : jsRound q = ⌊q + 1/2⌋ := rfl

theorem le_jsRound_of_le (n : ℤ) (q : ℚ) (h : (n : ℚ) ≤ q) : n ≤ jsRound q := by
  rw [jsRound_eq]
  exact Int.le_floor.mpr (by linarith)

theorem jsRound_le_of_le (n : ℤ) (q : ℚ) (h : q ≤ (n : ℚ)) : jsRound q ≤ n := by
  rw [jsRound_eq]
  have hlt : ⌊q + 1/2⌋ < n + 1 := Int.floor_lt.mpr (by push_cast; linarith)
  omega

theorem jsRound_dist (q : ℚ) : |(jsRound q : ℚ) - q| ≤ 1/2 := by
  rw [jsRound_eq]
  have h1 : ((⌊q + 1/2⌋ : ℤ) : ℚ) ≤ q + 1/2 := Int.floor_le _
  have h2 : q + 1/2 - 1 < ((⌊q + 1/2⌋ : ℤ) : ℚ) := Int.sub_one_lt_floor _
  rw [abs_le]
  constructor <;> linarith

theorem dimScore_le_100 (u b : ℚ) : dimScore u b ≤ 100 := by
  have h : 0 ≤ |u - b| := abs_nonneg _
  unfold dimScore
  nlinarith

theorem dimScore_nonneg (u b : ℚ) (hu1 : 1 ≤ u) (hu2 : u ≤ 10)
    (hb1 : 1 ≤ b) (hb2 : b ≤ 10) : 0 ≤ dimScore u b := by
  have h : |u - b| ≤ 9 := abs_le.mpr ⟨by linarith, by linarith⟩
  unfold dimScore
  nlinarith

theorem scanDims_fst (l : List ((ℚ × ℚ) × (String × String))) :
    (scanDims l).1 = (l.map fun p => dimScore p.1.1 p.1.2).sum := by
  induction l with
  | nil => simp [scanDims]
  | cons hd tl ih =>
    obtain ⟨⟨u, b⟩, lab⟩ := hd
    simp [scanDims, ih]

theorem scanDims_aligned (l : List ((ℚ × ℚ) × (String × String))) :
    (scanDims l).2.1 = l.filterMap fun p =>
      if dimScore p.1.1 p.1.2 ≥ 75 then
        some (if p.1.1 ≥ 5 then "Fits your " ++ p.2.2 else "Fits your " ++ p.2.1)
      else none := by
  induction l with
  | nil => simp [scanDims]
  | cons hd tl ih =>
    obtain ⟨⟨u, b⟩, lab⟩ := hd
    simp only [scanDims, List.filterMap_cons, ih]
    split_ifs <;> simp

theorem scanDims_mis (l : List ((ℚ × ℚ) × (String × String))) :
    (scanDims l).2.2 = l.filterMap fun p =>
      if dimScore p.1.1 p.1.2 < 45 then
        some (if p.1.1 ≥ 5 then "Conflicts with your " ++ p.2.2
              else "Conflicts with your " ++ p.2.1)
      else none := by
  induction l with
  | nil => simp [scanDims]
  | cons hd tl ih =>
    obtain ⟨⟨u, b⟩, lab⟩ := hd
    simp only [scanDims, List.filterMap_cons, ih]
    split_ifs with h1 h2 <;> first | linarith | simp

theorem map_zip_dim (z : List (ℚ × ℚ)) (labs : List (String × String))
    (h : z.length ≤ labs.length) :
    ((z.zip labs).map fun p => dimScore p.1.1 p.1.2) = z.map fun p => dimScore p.1 p.2 := by
  induction z generalizing labs with
  | nil => simp
  | cons hd tl ih =>
    cases labs with
    | nil => simp at h
    | cons lhd ltl =>
      simp only [List.zip_cons_cons, List.map_cons]
      exact congrArg _ (ih ltl (by simpa using h))

theorem map_zip_eq_zipWith (f : ℚ → ℚ → ℚ) (l1 l2 : List ℚ) :
    ((l1.zip l2).map fun p => f p.1 p.2) = List.zipWith f l1 l2 := by
  induction l1 generalizing l2 with
  | nil => simp
  | cons hd tl ih =>
    cases l2 with
    | nil => simp
    | cons h2 t2 => simp [ih]

theorem sum_bounds (l : List ℚ) (h : ∀ x ∈ l, 0 ≤ x ∧ x ≤ 100) :
    0 ≤ l.sum ∧ l.sum ≤ 100 * l.length := by
  induction l with
  | nil => simp
  | cons hd tl ih =>
    have hh := h hd (by simp)
    have ht := ih fun x hx => h x (by simp [hx])
    simp only [List.sum_cons, List.length_cons]
    push_cast
    constructor <;> linarith [hh.1, hh.2, ht.1, ht.2]

theorem zipWith_dimScore_bounds (l1 l2 : List ℚ)
    (h1 : ∀ x ∈ l1, 1 ≤ x ∧ x ≤ 10) (h2 : ∀ x ∈ l2, 1 ≤ x ∧ x ≤ 10) :
    ∀ y ∈ List.zipWith dimScore l1 l2, 0 ≤ y ∧ y ≤ 100 := by
  induction l1 generalizing l2 with
  | nil => simp
  | cons hd tl ih =>
    cases l2 with
    | nil => simp
    | cons h2h h2t =>
      intro y hy
      simp only [List.zipWith_cons_cons, List.mem_cons] at hy
      rcases hy with hy | hy
      · subst hy
        have a1 := h1 hd (by simp)
        have a2 := h2 h2h (by simp)
        exact ⟨dimScore_nonneg _ _ a1.1 a1.2 a2.1 a2.2, dimScore_le_100 _ _⟩
      · exact ih h2t (fun x hx => h1 x (by simp [hx]))
          (fun x hx => h2 x (by simp [hx])) y hy

/-! ## The valid (non-fallback) execution path -/

theorem calc_valid_score (u : User) (b : Build) (uv bv : List ℚ)
    (hu : u.playstyle_vector = some uv) (hb : b.build_vector = some bv)
    (hul : uv.length = 8) (hbl : bv.length = 8) :
    (calcCompatibility u b).score =
      jsRound ((scanDims ((uv.zip bv).zip (PLAYSTYLE_KEYS.map DIMENSION_LABELS))).1 / 8) := by
  simp [calcCompatibility, hu, hb, hul, hbl]

theorem calc_valid_label (u : User) (b : Build) (uv bv : List ℚ)
    (hu : u.playstyle_vector = some uv) (hb : b.build_vector = some bv)
    (hul : uv.length = 8) (hbl : bv.length = 8) :
    (calcCompatibility u b).label = matchLabel (calcCompatibility u b).score := by
  simp [calcCompatibility, hu, hb, hul, hbl]

theorem calc_valid_strengths (u : User) (b : Build) (uv bv : List ℚ)
    (hu : u.playstyle_vector = some uv) (hb : b.build_vector = some bv)
    (hul : uv.length = 8) (hbl : bv.length = 8) :
    (calcCompatibility u b).strengths =
      (scanDims ((uv.zip bv).zip (PLAYSTYLE_KEYS.map DIMENSION_LABELS))).2.1.take 3 := by
  simp [calcCompatibility, hu, hb, hul, hbl]

theorem calc_valid_weaknesses (u : User) (b : Build) (uv bv : List ℚ)
    (hu : u.playstyle_vector = some uv) (hb : b.build_vector = some bv)
    (hul : uv.length = 8) (hbl : bv.length = 8) :
    (calcCompatibility u b).weaknesses =
      (scanDims ((uv.zip bv).zip (PLAYSTYLE_KEYS.map DIMENSION_LABELS))).2.2.take 2 := by
  simp [calcCompatibility, hu, hb, hul, hbl]

theorem calc_valid_boost (u : User) (b : Build) (uv bv : List ℚ)
    (hu : u.playstyle_vector = some uv) (hb : b.build_vector = some bv)
    (hul : uv.length = 8) (hbl : bv.length = 8) :
    (calcCompatibility u b).predictedWinBoost =
      jsRound (max (-15) (min 30
        ((((calcCompatibility u b).score : ℚ) - 50) / 50 * 25 +
         (jsOrDefault (b.performance.map BuildPerformance.shooting) 50 - 50) * 0.3))) := by
  simp [calcCompatibility, hu, hb, hul, hbl]

theorem calc_invalid (u : User) (b : Build)
    (h : ¬ ∃ uv bv, u.playstyle_vector = some uv ∧ b.build_vector = some bv ∧
          uv.length = 8 ∧ bv.length = 8) :
    calcCompatibility u b = fallbackResult := by
  unfold calcCompatibility
  push_neg at h
  cases hu : u.playstyle_vector with
  | none => simp [hu]
  | some uv =>
    cases hb : b.build_vector with
    | none => simp [hu, hb]
    | some bv =>
      simp only [hu, hb]
      rw [if_neg]
      rintro ⟨h1, h2⟩
      exact h uv bv hu hb h1 h2

/-! ## Concrete sample inputs -/

/-- A buyer whose playstyle scan never completed (`playstyle_vector = null`). -/
def userNoVector : User := ⟨none⟩

/-- A buyer with the all-fives playstyle vector. -/
def userFives : User := ⟨some [5, 5, 5, 5, 5, 5, 5, 5]⟩

/-- A buyer at the low end of every dimension. -/
def userOnes : User := ⟨some [1, 1, 1, 1, 1, 1, 1, 1]⟩

/-- A buyer whose first component (100) is far outside the documented 1..10 range. -/
def userHundred : User := ⟨some [100, 1, 1, 1, 1, 1, 1, 1]⟩

/-- An all-fives build with shooting performance 80. -/
def buildFivesShoot80 : Build :=
  ⟨some [5, 5, 5, 5, 5, 5, 5, 5], some ⟨50, 80, 50, 50, 50, none⟩⟩

/-- An all-fives build with shooting performance 100. -/
def buildFivesShoot100 : Build :=
  ⟨some [5, 5, 5, 5, 5, 5, 5, 5], some ⟨50, 100, 50, 50, 50, none⟩⟩

/-- An all-fives build whose shooting performance is present and equal to 0. -/
def buildFivesShoot0 : Build :=
  ⟨some [5, 5, 5, 5, 5, 5, 5, 5], some ⟨50, 0, 50, 50, 50, none⟩⟩

/-- An all-tens build whose shooting performance is present and equal to 0. -/
def buildTensShoot0 : Build :=
  ⟨some [10, 10, 10, 10, 10, 10, 10, 10], some ⟨50, 0, 50, 50, 50, none⟩⟩

/-- An all-ones build with no performance block. -/
def buildOnesNoPerf : Build := ⟨some [1, 1, 1, 1, 1, 1, 1, 1], none⟩

/-! ## The claims -/

/-- C1: whenever the buyer vector or the build vector is null, or either
vector has a length other than 8, `calcCompatibility` returns exactly
`{score: 70, label: "Good Match", strengths: [], weaknesses: [],
predictedWinBoost: 5}`, and the shooting-performance data has no effect on
this fallback result. -/
theorem C1_fallback_literal (u : User) (b : Build)
    (h : ¬ ∃ uv bv, u.playstyle_vector = some uv ∧ b.build_vector = some bv ∧
          uv.length = 8 ∧ bv.length = 8) :
    calcCompatibility u b =
      { score := 70, label := "Good Match", strengths := [], weaknesses := []
      , predictedWinBoost := 5 } ∧
    ∀ p : Option BuildPerformance,
      calcCompatibility u { b with performance := p } =
        { score := 70, label := "Good Match", strengths := [], weaknesses := []
        , predictedWinBoost := 5 } := by
  refine ⟨calc_invalid u b h, fun p => calc_invalid u _ ?_⟩
  simpa using h

/-- C1 witness: the null-buyer-vector call from the spec, with build
`[5,5,5,5,5,5,5,5]` and shooting performance 80. -/
theorem C1_fallback_literal_witness :
    calcCompatibility userNoVector buildFivesShoot80 =
      { score := 70, label := "Good Match", strengths := [], weaknesses := []
      , predictedWinBoost := 5 } ∧
    ∀ p : Option BuildPerformance,
      calcCompatibility userNoVector { buildFivesShoot80 with performance := p } =
        { score := 70, label := "Good Match", strengths := [], weaknesses := []
        , predictedWinBoost := 5 } :=
  C1_fallback_literal userNoVector buildFivesShoot80
    (by rintro ⟨uv, bv, h1, h2, h3, h4⟩; simp [userNoVector] at h1)

/-- C8: `calcCompatibility` is a total function: every input yields a
`CompatibilityResult`, and malformed input (null vector or wrong length)
degrades to the fixed neutral fallback rather than erroring. -/
theorem C8_total_never_throws (u : User) (b : Build) :
    ∃ r : CompatibilityResult, calcCompatibility u b = r ∧
      ((¬ ∃ uv bv, u.playstyle_vector = some uv ∧ b.build_vector = some bv ∧
          uv.length = 8 ∧ bv.length = 8) → r = fallbackResult) :=
  ⟨calcCompatibility u b, rfl, fun h => calc_invalid u b h⟩

/-- C8 witness: instantiation at a concrete malformed input. -/
theorem C8_total_never_throws_witness :
    ∃ r : CompatibilityResult, calcCompatibility userNoVector buildFivesShoot80 = r ∧
      ((¬ ∃ uv bv, userNoVector.playstyle_vector = some uv ∧
          buildFivesShoot80.build_vector = some bv ∧
          uv.length = 8 ∧ bv.length = 8) → r = fallbackResult) :=
  C8_total_never_throws userNoVector buildFivesShoot80

/-- C3: on the valid path the returned label is determined from the
returned score by the fixed top-down thresholds with inclusive lower
bounds: ≥90 Perfect, 75..89 Great, 60..74 Good, 45..59 Moderate,
below 45 Poor. -/
theorem C3_label_bands (u : User) (b : Build) (uv bv : List ℚ)
    (hu : u.playstyle_vector = some uv) (hb : b.build_vector = some bv)
    (hul : uv.length = 8) (hbl : bv.length = 8) :
    (90 ≤ (calcCompatibility u b).score →
      (calcCompatibility u b).label = "Perfect Match") ∧
    (75 ≤ (calcCompatibility u b).score ∧ (calcCompatibility u b).score < 90 →
      (calcCompatibility u b).label = "Great Match") ∧
    (60 ≤ (calcCompatibility u b).score ∧ (calcCompatibility u b).score < 75 →
      (calcCompatibility u b).label = "Good Match") ∧
    (45 ≤ (calcCompatibility u b).score ∧ (calcCompatibility u b).score < 60 →
      (calcCompatibility u b).label = "Moderate Match") ∧
    ((calcCompatibility u b).score < 45 →
      (calcCompatibility u b).label = "Poor Match") := by
  rw [calc_valid_label u b uv bv hu hb hul hbl]
  unfold matchLabel
  refine ⟨fun h => ?_, fun h => ?_, fun h => ?_, fun h => ?_, fun h => ?_⟩ <;>
    split_ifs <;> first | rfl | omega

/-- C3 witness: instantiation at a concrete valid input. -/
theorem C3_label_bands_witness :
    (90 ≤ (calcCompatibility userFives buildFivesShoot80).score →
      (calcCompatibility userFives buildFivesShoot80).label = "Perfect Match") ∧
    (75 ≤ (calcCompatibility userFives buildFivesShoot80).score ∧
        (calcCompatibility userFives buildFivesShoot80).score < 90 →
      (calcCompatibility userFives buildFivesShoot80).label = "Great Match") ∧
    (60 ≤ (calcCompatibility userFives buildFivesShoot80).score ∧
        (calcCompatibility userFives buildFivesShoot80).score < 75 →
      (calcCompatibility userFives buildFivesShoot80).label = "Good Match") ∧
    (45 ≤ (calcCompatibility userFives buildFivesShoot80).score ∧
        (calcCompatibility userFives buildFivesShoot80).score < 60 →
      (calcCompatibility userFives buildFivesShoot80).label = "Moderate Match") ∧
    ((calcCompatibility userFives buildFivesShoot80).score < 45 →
      (calcCompatibility userFives buildFivesShoot80).label = "Poor Match") :=
  C3_label_bands userFives buildFivesShoot80 _ _ rfl rfl rfl rfl

/-- C5: on the valid path, `strengths` is the first 3, in dimension order,
of the "Fits your {label}" strings over exactly the dimensions with
`dimScore ≥ 75` (high label iff `buyer[i] ≥ 5`), and `weaknesses` is the
first 2 of the "Conflicts with your {label}" strings over exactly the
dimensions with `dimScore < 45`; hence at most 3 strengths and at most 2
weaknesses. -/
theorem C5_strengths_weaknesses (u : User) (b : Build) (uv bv : List ℚ)
    (hu : u.playstyle_vector = some uv) (hb : b.build_vector = some bv)
    (hul : uv.length = 8) (hbl : bv.length = 8) :
    (calcCompatibility u b).strengths =
      (((uv.zip bv).zip (PLAYSTYLE_KEYS.map DIMENSION_LABELS)).filterMap fun p =>
        if dimScore p.1.1 p.1.2 ≥ 75 then
          some (if p.1.1 ≥ 5 then "Fits your " ++ p.2.2 else "Fits your " ++ p.2.1)
        else none).take 3 ∧
    (calcCompatibility u b).weaknesses =
      (((uv.zip bv).zip (PLAYSTYLE_KEYS.map DIMENSION_LABELS)).filterMap fun p =>
        if dimScore p.1.1 p.1.2 < 45 then
          some (if p.1.1 ≥ 5 then "Conflicts with your " ++ p.2.2
                else "Conflicts with your " ++ p.2.1)
        else none).take 2 ∧
    (calcCompatibility u b).strengths.length ≤ 3 ∧
    (calcCompatibility u b).weaknesses.length ≤ 2 := by
  have hs := calc_valid_strengths u b uv bv hu hb hul hbl
  have hw := calc_valid_weaknesses u b uv bv hu hb hul hbl
  rw [hs, hw, scanDims_aligned, scanDims_mis]
  refine ⟨rfl, rfl, ?_, ?_⟩ <;> simp [List.length_take]

/-- C5 witness: instantiation at a concrete valid input. -/
theorem C5_strengths_weaknesses_witness :
    (calcCompatibility userFives buildFivesShoot80).strengths =
      ((([(5:ℚ),5,5,5,5,5,5,5].zip [(5:ℚ),5,5,5,5,5,5,5]).zip
          (PLAYSTYLE_KEYS.map DIMENSION_LABELS)).filterMap fun p =>
        if dimScore p.1.1 p.1.2 ≥ 75 then
          some (if p.1.1 ≥ 5 then "Fits your " ++ p.2.2 else "Fits your " ++ p.2.1)
        else none).take 3 ∧
    (calcCompatibility userFives buildFivesShoot80).weaknesses =
      ((([(5:ℚ),5,5,5,5,5,5,5].zip [(5:ℚ),5,5,5,5,5,5,5]).zip
          (PLAYSTYLE_KEYS.map DIMENSION_LABELS)).filterMap fun p =>
        if dimScore p.1.1 p.1.2 < 45 then
          some (if p.1.1 ≥ 5 then "Conflicts with your " ++ p.2.2
                else "Conflicts with your " ++ p.2.1)
        else none).take 2 ∧
    (calcCompatibility userFives buildFivesShoot80).strengths.length ≤ 3 ∧
    (calcCompatibility userFives buildFivesShoot80).weaknesses.length ≤ 2 :=
  C5_strengths_weaknesses userFives buildFivesShoot80 _ _ rfl rfl rfl rfl

/-- C7: when the buyer vector equals the build vector (a valid length-8
vector with components in 1..10), every dimension scores 100, the overall
score is exactly 100, and the label is "Perfect Match", regardless of the
performance data of the build. -/
theorem C7_identity (v : List ℚ) (hlen : v.length = 8)
    (_hv : ∀ x ∈ v, 1 ≤ x ∧ x ≤ 10) (u : User) (b : Build)
    (hu : u.playstyle_vector = some v) (hb : b.build_vector = some v) :
    List.zipWith dimScore v v = List.replicate 8 100 ∧
    (calcCompatibility u b).score = 100 ∧
    (calcCompatibility u b).label = "Perfect Match" := by
  have hzip : List.zipWith dimScore v v = List.replicate 8 100 := by
    rw [List.zipWith_same]
    rw [show (8 : ℕ) = (v.map fun a => dimScore a a).length by simp [hlen]]
    rw [List.eq_replicate_length]
    intro y hy
    obtain ⟨x, _, rfl⟩ := List.mem_map.mp hy
    unfold dimScore
    rw [sub_self, abs_zero]
    norm_num
  have hscore : (calcCompatibility u b).score = 100 := by
    rw [calc_valid_score u b v v hu hb hlen hlen, scanDims_fst,
        map_zip_dim _ _ (by simp [hlen, PLAYSTYLE_KEYS]),
        map_zip_eq_zipWith, hzip]
    have hsum : (List.replicate 8 (100:ℚ)).sum = 800 := by
      simp [List.sum_replicate]
      norm_num
    rw [hsum, show (800:ℚ)/8 = 100 by norm_num, jsRound_eq, Int.floor_eq_iff] <;> norm_num
  refine ⟨hzip, hscore, ?_⟩
  rw [calc_valid_label u b v v hu hb hlen hlen, hscore]
  decide

/-- C7 witness: instantiation at the all-fives vector. -/
theorem C7_identity_witness :
    List.zipWith dimScore [(5:ℚ),5,5,5,5,5,5,5] [(5:ℚ),5,5,5,5,5,5,5] =
      List.replicate 8 100 ∧
    (calcCompatibility userFives buildFivesShoot80).score = 100 ∧
    (calcCompatibility userFives buildFivesShoot80).label = "Perfect Match" :=
  C7_identity [(5:ℚ),5,5,5,5,5,5,5] rfl (by decide) userFives buildFivesShoot80 rfl rfl

/-- C2: for valid length-8 vectors with components in 1..10, the returned
score is the rounding (floor of x + 1/2, i.e. a nearest integer) of the
arithmetic mean over the 8 dimensions of `(1 - |buyer[i] - build[i]|/9) * 100`,
and it lies in 0..100. -/
theorem C2_score_rounded_mean (u : User) (b : Build) (uv bv : List ℚ)
    (hu : u.playstyle_vector = some uv) (hb : b.build_vector = some bv)
    (hul : uv.length = 8) (hbl : bv.length = 8)
    (huv : ∀ x ∈ uv, 1 ≤ x ∧ x ≤ 10) (hbv : ∀ x ∈ bv, 1 ≤ x ∧ x ≤ 10) :
    (calcCompatibility u b).score =
      jsRound ((List.zipWith (fun x y => (1 - |x - y| / 9) * 100) uv bv).sum / 8) ∧
    |((calcCompatibility u b).score : ℚ) -
      (List.zipWith (fun x y => (1 - |x - y| / 9) * 100) uv bv).sum / 8| ≤ 1/2 ∧
    0 ≤ (calcCompatibility u b).score ∧
    (calcCompatibility u b).score ≤ 100 := by
  have hfun : (fun x y : ℚ => (1 - |x - y| / 9) * 100) = dimScore := rfl
  rw [hfun]
  have hkey : (calcCompatibility u b).score =
      jsRound ((List.zipWith dimScore uv bv).sum / 8) := by
    rw [calc_valid_score u b uv bv hu hb hul hbl, scanDims_fst,
        map_zip_dim _ _ (by simp [hul, hbl, PLAYSTYLE_KEYS]), map_zip_eq_zipWith]
  have hmem := zipWith_dimScore_bounds uv bv huv hbv
  have hsum := sum_bounds _ hmem
  have hlen8 : (List.zipWith dimScore uv bv).length = 8 := by
    simp [hul, hbl]
  rw [hlen8] at hsum
  have hsum800 : (List.zipWith dimScore uv bv).sum ≤ 800 := by
    have := hsum.2
    push_cast at this
    linarith
  have hm0 : 0 ≤ (List.zipWith dimScore uv bv).sum / 8 :=
    div_nonneg hsum.1 (by norm_num)
  have hm100 : (List.zipWith dimScore uv bv).sum / 8 ≤ 100 := by
    rw [div_le_iff (by norm_num : (0:ℚ) < 8)]
    linarith
  refine ⟨hkey, ?_, ?_, ?_⟩
  · rw [hkey]
    exact jsRound_dist _
  · rw [hkey]
    exact le_jsRound_of_le 0 _ (by exact_mod_cast hm0)
  · rw [hkey]
    exact jsRound_le_of_le 100 _ (by exact_mod_cast hm100)

/-- C2 witness: instantiation at a concrete valid input. -/
theorem C2_score_rounded_mean_witness :
    (calcCompatibility userFives buildFivesShoot80).score =
      jsRound ((List.zipWith (fun x y => (1 - |x - y| / 9) * 100)
        [(5:ℚ),5,5,5,5,5,5,5] [(5:ℚ),5,5,5,5,5,5,5]).sum / 8) ∧
    |((calcCompatibility userFives buildFivesShoot80).score : ℚ) -
      (List.zipWith (fun x y => (1 - |x - y| / 9) * 100)
        [(5:ℚ),5,5,5,5,5,5,5] [(5:ℚ),5,5,5,5,5,5,5]).sum / 8| ≤ 1/2 ∧
    0 ≤ (calcCompatibility userFives buildFivesShoot80).score ∧
    (calcCompatibility userFives buildFivesShoot80).score ≤ 100 :=
  C2_score_rounded_mean userFives buildFivesShoot80 _ _ rfl rfl rfl rfl
    (by decide) (by decide)

/-- C9: a build whose shooting performance is present and equal to 0 is
scored exactly as if the performance block were absent: `0` is coalesced
to the default 50 by the `||` operator, so `perfBoost` is 0 rather
than -15. -/
theorem C9_shooting_zero_coalesced (u : User) (b : Build) (uv bv : List ℚ)
    (p : BuildPerformance)
    (hu : u.playstyle_vector = some uv) (hb : b.build_vector = some bv)
    (hul : uv.length = 8) (hbl : bv.length = 8)
    (hp : b.performance = some p) (hs : p.shooting = 0) :
    calcCompatibility u b = calcCompatibility u { b with performance := none } := by
  simp [calcCompatibility, hu, hb, hul, hbl, hp, hs, jsOrDefault]

/-- C9 witness: the all-fives build with shooting performance 0. -/
theorem C9_shooting_zero_coalesced_witness :
    calcCompatibility userFives buildFivesShoot0 =
      calcCompatibility userFives { buildFivesShoot0 with performance := none } :=
  C9_shooting_zero_coalesced userFives buildFivesShoot0 _ _ ⟨50, 0, 50, 50, 50, none⟩
    rfl rfl rfl rfl rfl rfl

/-- C6: for every input the returned `predictedWinBoost` lies in [-15, 30];
a perfect match with shooting performance 100 yields exactly 30, and a
worst match (score 0) with shooting performance 0 yields exactly -15. -/
theorem C6_boost_clamped :
    (∀ (u : User) (b : Build),
      -15 ≤ (calcCompatibility u b).predictedWinBoost ∧
      (calcCompatibility u b).predictedWinBoost ≤ 30) ∧
    (calcCompatibility userFives buildFivesShoot100).predictedWinBoost = 30 ∧
    (calcCompatibility userOnes buildTensShoot0).predictedWinBoost = -15 := by
  refine ⟨fun u b => ?_, ?_, ?_⟩
  · rcases hu : u.playstyle_vector with _ | uv
    · rw [calc_invalid u b (by simp [hu])]
      decide
    · rcases hb : b.build_vector with _ | bv
      · rw [calc_invalid u b (by simp [hb])]
        decide
      · by_cases hlen : uv.length = 8 ∧ bv.length = 8
        · rw [calc_valid_boost u b uv bv hu hb hlen.1 hlen.2]
          constructor
          · apply le_jsRound_of_le
            push_cast
            exact le_max_left _ _
          · apply jsRound_le_of_le
            push_cast
            exact max_le (by norm_num) (min_le_left _ _)
        · rw [calc_invalid u b ?_]
          · decide
          rintro ⟨uv2, bv2, hu2, hb2, h1, h2⟩
          rw [hu] at hu2
          rw [hb] at hb2
          obtain rfl := Option.some.inj hu2
          obtain rfl := Option.some.inj hb2
          exact hlen ⟨h1, h2⟩
  · have h1 : jsRound 100 = 100 := by
      rw [jsRound_eq, Int.floor_eq_iff] <;> norm_num
    have h2 : jsRound 30 = 30 := by
      rw [jsRound_eq, Int.floor_eq_iff] <;> norm_num
    norm_num [calcCompatibility, scanDims, dimScore, PLAYSTYLE_KEYS, DIMENSION_LABELS,
      jsOrDefault, matchLabel, userFives, buildFivesShoot100, h1, h2]
  · have h1 : jsRound 0 = 0 := by
      rw [jsRound_eq, Int.floor_eq_iff] <;> norm_num
    have h2 : jsRound (-15) = -15 := by
      rw [jsRound_eq, Int.floor_eq_iff] <;> norm_num
    norm_num [calcCompatibility, scanDims, dimScore, PLAYSTYLE_KEYS, DIMENSION_LABELS,
      jsOrDefault, matchLabel, userOnes, buildTensShoot0, h1, h2]

/-- C4 counterexample: with buyer and build both all-fives (score 100) and
a present shooting performance of 0, the code returns
`predictedWinBoost = 25` (the 0 is coalesced to 50, `perfBoost = 0`),
while the claimed formula with `perfBoost = (0 - 50) * 0.3 = -15` would
give 10. -/
theorem C4_boost_counterexample :
    (calcCompatibility userFives buildFivesShoot0).predictedWinBoost = 25 ∧
    jsRound (max (-15) (min 30
      ((((calcCompatibility userFives buildFivesShoot0).score : ℚ) - 50) / 50 * 25 +
       ((0 : ℚ) - 50) * 0.3))) = 10 ∧
    (calcCompatibility userFives buildFivesShoot0).predictedWinBoost ≠
      jsRound (max (-15) (min 30
        ((((calcCompatibility userFives buildFivesShoot0).score : ℚ) - 50) / 50 * 25 +
         ((0 : ℚ) - 50) * 0.3))) := by
  have h1 : jsRound 100 = 100 := by
    rw [jsRound_eq, Int.floor_eq_iff] <;> norm_num
  have h2 : jsRound 25 = 25 := by
    rw [jsRound_eq, Int.floor_eq_iff] <;> norm_num
  have h3 : jsRound 10 = 10 := by
    rw [jsRound_eq, Int.floor_eq_iff] <;> norm_num
  have hboost : (calcCompatibility userFives buildFivesShoot0).predictedWinBoost = 25 := by
    norm_num [calcCompatibility, scanDims, dimScore, PLAYSTYLE_KEYS, DIMENSION_LABELS,
      jsOrDefault, matchLabel, userFives, buildFivesShoot0, h1, h2]
  have hscore : (calcCompatibility userFives buildFivesShoot0).score = 100 := by
    norm_num [calcCompatibility, scanDims, dimScore, PLAYSTYLE_KEYS, DIMENSION_LABELS,
      jsOrDefault, matchLabel, userFives, buildFivesShoot0, h1, h2]
  refine ⟨hboost, ?_, ?_⟩ <;> rw [hscore] <;> norm_num [h3, hboost]

/-- C4 (amended): on the valid path, `predictedWinBoost` equals
`round(clamp(baseBoost + perfBoost, -15, 30))` with
`baseBoost = ((score - 50) / 50) * 25` and
`perfBoost = (s - 50) * 0.3`, where `s` is 50 when the shooting
performance is absent OR equal to 0 (falsy coalescing), and the raw
shooting value otherwise. -/
theorem C4_boost_formula_amended (u : User) (b : Build) (uv bv : List ℚ)
    (hu : u.playstyle_vector = some uv) (hb : b.build_vector = some bv)
    (hul : uv.length = 8) (hbl : bv.length = 8)
    (_hperf : b.performance = none ∨
      ∃ p, b.performance = some p ∧ 0 ≤ p.shooting ∧ p.shooting ≤ 100) :
    (calcCompatibility u b).predictedWinBoost =
      jsRound (max (-15) (min 30
        ((((calcCompatibility u b).score : ℚ) - 50) / 50 * 25 +
         ((match b.performance with
           | none => (50 : ℚ)
           | some p => if p.shooting = 0 then 50 else p.shooting) - 50) * 0.3))) := by
  rw [calc_valid_boost u b uv bv hu hb hul hbl]
  cases hp : b.performance with
  | none => simp [jsOrDefault]
  | some p => by_cases hs : p.shooting = 0 <;> simp [jsOrDefault, hs]

/-- C4 amended witness: instantiation at a concrete valid input with a
present shooting performance of 80. -/
theorem C4_boost_formula_amended_witness :
    (calcCompatibility userFives buildFivesShoot80).predictedWinBoost =
      jsRound (max (-15) (min 30
        ((((calcCompatibility userFives buildFivesShoot80).score : ℚ) - 50) / 50 * 25 +
         ((match buildFivesShoot80.performance with
           | none => (50 : ℚ)
           | some p => if p.shooting = 0 then 50 else p.shooting) - 50) * 0.3))) :=
  C4_boost_formula_amended userFives buildFivesShoot80 _ _ rfl rfl rfl rfl
    (Or.inr ⟨⟨50, 80, 50, 50, 50, none⟩, rfl, by decide, by decide⟩)

/-- C10: the code does not validate that vector components lie in 1..10:
with a buyer component of 100 against a build component of 1 the
per-dimension score is -1000 and the overall returned score is -37,
negative and outside the documented 0..100 range. -/
theorem C10_no_range_check :
    (∃ x ∈ userHundred.playstyle_vector.getD [], 10 < x) ∧
    (calcCompatibility userHundred buildOnesNoPerf).score = -37 ∧
    (calcCompatibility userHundred buildOnesNoPerf).score < 0 := by
  refine ⟨⟨100, by simp [userHundred], by norm_num⟩, ?_, ?_⟩ <;>
  · have h1 : jsRound (-(75/2)) = -37 := by
      rw [jsRound_eq, Int.floor_eq_iff] <;> norm_num
    norm_num [calcCompatibility, scanDims, dimScore, PLAYSTYLE_KEYS, DIMENSION_LABELS,
      jsOrDefault, matchLabel, userHundred, buildOnesNoPerf, h1]

end Players
